import Mathlib

/-!
Shallow embedding of `src/nsenso_scan.py` (nSenso Linux security scanner).

The ambient system is modelled as a map from a shell command line to its
captured stdout; `none` models the case where launching the subprocess
raises an exception.  Probe checks are translated one-to-one from the
Python methods of `NSensoScanner`; the scan loop of `main` (the
100-iteration progress loop) is translated literally.  Report generation
is modelled as a pure function producing a structured value (JSON tree
for structured mode, a list of printed items for narrative mode), with
the wall-clock timestamp passed as an explicit parameter.
-/

/-- Ambient system state: stdout of each shell command, or `none` when the
subprocess cannot even be launched (an exception is raised). -/
def Env : Type := String → Option String

/-- One finding record, as built by the `check_*` methods: a dict with keys
`type`, `description`, `command`, `remediation`. -/
structure Finding where
  type : String
  description : String
  command : String
  remediation : String
deriving DecidableEq

/-- The `self.findings` dict of `NSensoScanner.__init__`: three severity
buckets, inserted in the order critical, warning, info. -/
structure Findings where
  critical : List Finding
  warning : List Finding
  info : List Finding
deriving DecidableEq

/-- `self.findings` as initialised in `__init__`: all three buckets empty. -/
def initFindings : Findings := ⟨[], [], []⟩

/-- The closed severity enumeration (the three fixed keys of the dict). -/
inductive Severity where
  | critical
  | warning
  | info
deriving DecidableEq

/-- The bucket of a severity inside a `Findings` value. -/
def Findings.bucket (st : Findings) : Severity → List Finding
  | Severity.critical => st.critical
  | Severity.warning => st.warning
  | Severity.info => st.info

/-- `self.findings.items()`: the key/value pairs in dict insertion order
(critical, warning, info — fixed at `__init__`). -/
def findingsItems (st : Findings) : List (Severity × List Finding) :=
  [(Severity.critical, st.critical), (Severity.warning, st.warning),
   (Severity.info, st.info)]

/-- Is `needle` a prefix of `hay` (over character lists)? -/
def isPrefixOfL : List Char → List Char → Bool
  | [], _ => true
  | _ :: _, [] => false
  | a :: as, b :: bs => a == b && isPrefixOfL as bs

/-- Does `hay` contain `needle` as a contiguous sublist? -/
def containsSub (needle : List Char) : List Char → Bool
  | [] => isPrefixOfL needle []
  | b :: bs => isPrefixOfL needle (b :: bs) || containsSub needle bs

/-- Python substring membership `needle in hay`. -/
def strContains (hay needle : String) : Bool :=
  containsSub needle.toList hay.toList

/-- `subprocess.run(command, shell=True, capture_output=True, text=True)`:
returns captured stdout, or raises (modelled as `Except.error`) when the
process cannot be launched. -/
def run_command_attempt (env : Env) (cmd : String) : Except String String :=
  match env cmd with
  | some out => Except.ok out
  | none => Except.error cmd

/-- `NSensoScanner.run_command`: executes the command inside try/except;
on any exception it prints an error and returns the empty string. -/
def run_command (env : Env) (cmd : String) : String :=
  match run_command_attempt env cmd with
  | Except.ok out => out
  | Except.error _ => ""

/-- The shell command of the sudo -l check. -/
def sudoLCmd : String := "sudo -l 2>/dev/null"

/-- The shell command of the SUID-binaries check. -/
def suidCmd : String := "find / -perm -4000 -type f 2>/dev/null"

/-- The shell command of the world-writable-files check. -/
def wwCmd : String := "find / -type f -perm -o+w -exec ls -lh \x7b\x7d + 2>/dev/null"

/-- The shell command of the empty-passwords check. -/
def shadowCmd : String := "cat /etc/shadow | awk -F: \x27($2==\"\")\x7bprint $1\x7d\x27"

/-- The shell command of the root-processes check. -/
def psCmd : String := "ps aux | grep root | grep -v grep"

/-- The shell command of the kernel-parameters check. -/
def sysctlCmd : String := "sysctl -a | grep kernel"

/-- The critical finding appended when `sudo -l` output contains NOPASSWD. -/
def sudoFinding : Finding :=
  { type := "sudo_misconfig"
  , description := "NOPASSWD sudo access detected"
  , command := "sudo -l"
  , remediation := "Review and restrict sudo access in /etc/sudoers" }

/-- `NSensoScanner.check_sudo_misconfigurations`. -/
def check_sudo_misconfigurations (env : Env) (st : Findings) : Findings :=
  let sudo_l_output := run_command env sudoLCmd
  let st1 :=
    if strContains sudo_l_output "NOPASSWD" then
      { st with critical := st.critical ++ [sudoFinding] }
    else st
  let suid_binaries := run_command env suidCmd
  if suid_binaries ≠ "" then
    { st1 with warning := st1.warning ++
        [{ type := "suid_binaries"
         , description := "Found SUID binaries:\n" ++ suid_binaries
         , command := "find / -perm -4000 -type f"
         , remediation := "Review and remove unnecessary SUID permissions" }] }
  else st1

/-- `NSensoScanner.check_file_permissions`. -/
def check_file_permissions (env : Env) (st : Findings) : Findings :=
  let world_writable := run_command env wwCmd
  if world_writable ≠ "" then
    { st with critical := st.critical ++
        [{ type := "world_writable_files"
         , description := "Found world-writable files"
         , command := "find / -type f -perm -o+w"
         , remediation := "Review and restrict file permissions" }] }
  else st

/-- `NSensoScanner.check_user_security`. -/
def check_user_security (env : Env) (st : Findings) : Findings :=
  let empty_passwords := run_command env shadowCmd
  if empty_passwords ≠ "" then
    { st with critical := st.critical ++
        [{ type := "empty_passwords"
         , description := "Users with empty passwords:\n" ++ empty_passwords
         , command := "cat /etc/shadow"
         , remediation := "Set strong passwords for all users" }] }
  else st

/-- `NSensoScanner.check_process_security`. -/
def check_process_security (env : Env) (st : Findings) : Findings :=
  let root_processes := run_command env psCmd
  if root_processes ≠ "" then
    { st with warning := st.warning ++
        [{ type := "root_processes"
         , description := "Processes running as root"
         , command := "ps aux | grep root"
         , remediation := "Review and restrict root process execution" }] }
  else st

/-- `NSensoScanner.check_kernel_hardening`. -/
def check_kernel_hardening (env : Env) (st : Findings) : Findings :=
  let kernel_params := run_command env sysctlCmd
  if kernel_params ≠ "" then
    { st with info := st.info ++
        [{ type := "kernel_parameters"
         , description := "Current kernel parameters"
         , command := "sysctl -a | grep kernel"
         , remediation := "Review and adjust kernel parameters for security" }] }
  else st

/-- Identifier of each built-in probe. -/
inductive ProbeId where
  | sudoCheck
  | files
  | users
  | processes
  | kernel
deriving DecidableEq

/-- Which probe the loop body of `main` runs at iteration `i` of
`for i in range(100)`. -/
def probeOf (i : Nat) : ProbeId :=
  if i < 20 then ProbeId.sudoCheck
  else if i < 40 then ProbeId.files
  else if i < 60 then ProbeId.users
  else if i < 80 then ProbeId.processes
  else ProbeId.kernel

/-- Dispatch a probe identifier to its check method. -/
def runCheck (env : Env) (p : ProbeId) (st : Findings) : Findings :=
  match p with
  | ProbeId.sudoCheck => check_sudo_misconfigurations env st
  | ProbeId.files => check_file_permissions env st
  | ProbeId.users => check_user_security env st
  | ProbeId.processes => check_process_security env st
  | ProbeId.kernel => check_kernel_hardening env st

/-- The scan loop of `main` (`for i in range(100): ...`), instrumented with
the list of probe invocations it performs (progress-bar updates and the
sleep are cosmetic and not modelled). -/
def scanLoop (env : Env) : Findings × List ProbeId :=
  (List.range 100).foldl
    (fun (acc : Findings × List ProbeId) i =>
      (runCheck env (probeOf i) acc.1, acc.2 ++ [probeOf i]))
    (initFindings, [])

/-- The findings accumulated by one full scan of `main`. -/
def runScan (env : Env) : Findings := (scanLoop env).1

/-- The sequence of probe invocations one full scan of `main` performs. -/
def scanTrace (env : Env) : List ProbeId := (scanLoop env).2

/-- `run_command` with the exception made explicit: the try/except of
`run_command` catches the launch failure and converts it to `""`, so the
computation never escapes with an error. -/
def run_commandE (env : Env) (cmd : String) : Except String String :=
  match run_command_attempt env cmd with
  | Except.ok out => Except.ok out
  | Except.error _ => Except.ok ""

/-- `check_sudo_misconfigurations` with exception propagation made
explicit: any error escaping `run_command` would abort the check. -/
def check_sudo_misconfigurationsE (env : Env) (st : Findings) :
    Except String Findings :=
  match run_commandE env sudoLCmd with
  | Except.error e => Except.error e
  | Except.ok sudo_l_output =>
    let st1 :=
      if strContains sudo_l_output "NOPASSWD" then
        { st with critical := st.critical ++ [sudoFinding] }
      else st
    match run_commandE env suidCmd with
    | Except.error e => Except.error e
    | Except.ok suid_binaries =>
      Except.ok <|
        if suid_binaries ≠ "" then
          { st1 with warning := st1.warning ++
              [{ type := "suid_binaries"
               , description := "Found SUID binaries:\n" ++ suid_binaries
               , command := "find / -perm -4000 -type f"
               , remediation := "Review and remove unnecessary SUID permissions" }] }
        else st1

/-- `check_file_permissions` with exception propagation made explicit. -/
def check_file_permissionsE (env : Env) (st : Findings) :
    Except String Findings :=
  match run_commandE env wwCmd with
  | Except.error e => Except.error e
  | Except.ok world_writable =>
    Except.ok <|
      if world_writable ≠ "" then
        { st with critical := st.critical ++
            [{ type := "world_writable_files"
             , description := "Found world-writable files"
             , command := "find / -type f -perm -o+w"
             , remediation := "Review and restrict file permissions" }] }
      else st

/-- `check_user_security` with exception propagation made explicit. -/
def check_user_securityE (env : Env) (st : Findings) :
    Except String Findings :=
  match run_commandE env shadowCmd with
  | Except.error e => Except.error e
  | Except.ok empty_passwords =>
    Except.ok <|
      if empty_passwords ≠ "" then
        { st with critical := st.critical ++
            [{ type := "empty_passwords"
             , description := "Users with empty passwords:\n" ++ empty_passwords
             , command := "cat /etc/shadow"
             , remediation := "Set strong passwords for all users" }] }
      else st

/-- `check_process_security` with exception propagation made explicit. -/
def check_process_securityE (env : Env) (st : Findings) :
    Except String Findings :=
  match run_commandE env psCmd with
  | Except.error e => Except.error e
  | Except.ok root_processes =>
    Except.ok <|
      if root_processes ≠ "" then
        { st with warning := st.warning ++
            [{ type := "root_processes"
             , description := "Processes running as root"
             , command := "ps aux | grep root"
             , remediation := "Review and restrict root process execution" }] }
      else st

/-- `check_kernel_hardening` with exception propagation made explicit. -/
def check_kernel_hardeningE (env : Env) (st : Findings) :
    Except String Findings :=
  match run_commandE env sysctlCmd with
  | Except.error e => Except.error e
  | Except.ok kernel_params =>
    Except.ok <|
      if kernel_params ≠ "" then
        { st with info := st.info ++
            [{ type := "kernel_parameters"
             , description := "Current kernel parameters"
             , command := "sysctl -a | grep kernel"
             , remediation := "Review and adjust kernel parameters for security" }] }
      else st

/-- Dispatch the exception-explicit checks. -/
def runCheckE (env : Env) (p : ProbeId) (st : Findings) : Except String Findings :=
  match p with
  | ProbeId.sudoCheck => check_sudo_misconfigurationsE env st
  | ProbeId.files => check_file_permissionsE env st
  | ProbeId.users => check_user_securityE env st
  | ProbeId.processes => check_process_securityE env st
  | ProbeId.kernel => check_kernel_hardeningE env st

/-- The scan loop of `main` in the exception monad: an uncaught exception
in any check would abort the whole scan with `Except.error`. -/
def mainScanE (env : Env) : Except String Findings :=
  (List.range 100).foldlM (fun st i => runCheckE env (probeOf i) st) initFindings

/-- JSON values, as produced by `json.dumps` (object key order is dict
insertion order). -/
inductive JsonVal where
  | str : String → JsonVal
  | arr : List JsonVal → JsonVal
  | obj : List (String × JsonVal) → JsonVal

/-- The keys of a JSON object (empty for non-objects). -/
def JsonVal.keys : JsonVal → List String
  | JsonVal.obj kvs => kvs.map Prod.fst
  | _ => []

/-- Look up a key in a JSON object. -/
def JsonVal.lookup : JsonVal → String → Option JsonVal
  | JsonVal.obj kvs, k => List.lookup k kvs
  | _, _ => none

/-- Is this JSON value a string? -/
def JsonVal.isStr : JsonVal → Bool
  | JsonVal.str _ => true
  | _ => false

/-- Serialisation of one finding dict. -/
def findingToJson (f : Finding) : JsonVal :=
  JsonVal.obj
    [ ("type", JsonVal.str f.type)
    , ("description", JsonVal.str f.description)
    , ("command", JsonVal.str f.command)
    , ("remediation", JsonVal.str f.remediation) ]

/-- Serialisation of the `self.findings` dict. -/
def findingsToJson (st : Findings) : JsonVal :=
  JsonVal.obj
    [ ("critical", JsonVal.arr (st.critical.map findingToJson))
    , ("warning", JsonVal.arr (st.warning.map findingToJson))
    , ("info", JsonVal.arr (st.info.map findingToJson)) ]

/-- `NSensoScanner._generate_json_report`: the serialised report object,
with the `datetime.now().isoformat()` timestamp passed in as `ts`. -/
def generate_json_report (ts : String) (st : Findings) : JsonVal :=
  JsonVal.obj
    [ ("timestamp", JsonVal.str ts)
    , ("findings", findingsToJson st) ]

/-- One item printed by `_generate_text_report` (colors and rich markup are
presentation detail and not modelled; a `panel` item carries the full
finding whose four fields the panel displays). -/
inductive ReportItem where
  | header
  | timestampLine : String → ReportItem
  | sectionHeader : Severity → ReportItem
  | panel : Severity → Finding → ReportItem
deriving DecidableEq

/-- The items one iteration of the `for severity, findings in
self.findings.items()` loop prints: nothing when the bucket is empty,
otherwise the severity section header followed by one panel per finding,
in bucket order. -/
def sectionItemsFor (p : Severity × List Finding) : List ReportItem :=
  if p.2 = [] then []
  else ReportItem.sectionHeader p.1 :: p.2.map (ReportItem.panel p.1)

/-- `NSensoScanner._generate_text_report`: the sequence of printed items
(header, completion-time line, then the severity sections). -/
def generate_text_report (ts : String) (st : Findings) : List ReportItem :=
  [ReportItem.header, ReportItem.timestampLine ts] ++
    (findingsItems st).bind sectionItemsFor

/-- A rendered report: either the narrative output or the JSON document. -/
inductive Report where
  | text : List ReportItem → Report
  | json : JsonVal → Report

/-- `NSensoScanner.generate_report`: dispatch on the output format string;
anything other than the exact string "json" takes the text branch. -/
def generate_report (st : Findings) (ts : String) (output_format : String) :
    Report :=
  if output_format = "json" then Report.json (generate_json_report ts st)
  else Report.text (generate_text_report ts st)

/-- `argparse` handling of `--format` with `choices=["text", "json"]` and
`default="text"`: an absent flag yields the default, a recognised value is
accepted, and any other value makes argparse exit with status 2 before the
scanner is even constructed. -/
def parse_args (arg : Option String) : Except Nat String :=
  match arg with
  | none => Except.ok "text"
  | some v => if v = "text" ∨ v = "json" then Except.ok v else Except.error 2

/-- The observable outcome of one process run of `main`. -/
structure CliRun where
  parsed : Option String
  probesRun : List ProbeId
  report : Option Report
  exitCode : Nat

/-- `main`: parse arguments (exiting non-zero on an unrecognised format,
before any probe runs), then run the scan loop and generate the report;
a completed run falls off the end of `main` and the process exits 0. -/
def mainCli (env : Env) (arg : Option String) (ts : String) : CliRun :=
  match parse_args arg with
  | Except.error c =>
    { parsed := none, probesRun := [], report := none, exitCode := c }
  | Except.ok fmt =>
    { parsed := some fmt
    , probesRun := scanTrace env
    , report := some (generate_report (runScan env) ts fmt)
    , exitCode := 0 }

/-- The diagnostic commands each probe executes. -/
def probeCommands : ProbeId → List String
  | ProbeId.sudoCheck => [sudoLCmd, suidCmd]
  | ProbeId.files => [wwCmd]
  | ProbeId.users => [shadowCmd]
  | ProbeId.processes => [psCmd]
  | ProbeId.kernel => [sysctlCmd]

/-- Override an environment so that every command in `cs` fails to launch. -/
def failCommands (cs : List String) (env : Env) : Env :=
  fun c => if c ∈ cs then none else env c

/-- The severities a narrative report mentions in section headers, in the
order the sections are printed. -/
def sectionSeq (r : List ReportItem) : List Severity :=
  r.filterMap (fun it => match it with
    | ReportItem.sectionHeader s => some s
    | _ => none)

/-- The findings a narrative report prints under severity `s`, in the
order their panels are printed. -/
def panelsOf (s : Severity) (r : List ReportItem) : List Finding :=
  r.filterMap (fun it => match it with
    | ReportItem.panel s2 f => if s2 = s then some f else none
    | _ => none)

/-- Does a JSON value have exactly the shape of a serialised finding:
an object with keys `type`, `description`, `command`, `remediation`, in
that order, each bound to a string? -/
def isFindingObj : JsonVal → Bool
  | JsonVal.obj [(k1, v1), (k2, v2), (k3, v3), (k4, v4)] =>
      k1 == "type" && k2 == "description" && k3 == "command" &&
        k4 == "remediation" &&
        v1.isStr && v2.isStr && v3.isStr && v4.isStr
  | _ => false

/-- Keep every printed item except the completion-time line. -/
def nonTimestampItem : ReportItem → Bool
  | ReportItem.timestampLine _ => false
  | _ => true

/-- A system where `sudo -l` reports a NOPASSWD grant and every other
command produces empty output. -/
def envNopasswd : Env :=
  fun c => if c = sudoLCmd then some "NOPASSWD: ALL" else some ""

theorem scanLoop_pair (l : List Nat) (env : Env) (a : Findings) (tr : List ProbeId) :
    l.foldl (fun (acc : Findings × List ProbeId) i =>
      (runCheck env (probeOf i) acc.1, acc.2 ++ [probeOf i])) (a, tr)
      = (l.foldl (fun st i => runCheck env (probeOf i) st) a, tr ++ l.map probeOf) := by
  induction l generalizing a tr with
  | nil => simp
  | cons x xs ih => simp [List.foldl_cons, ih]

theorem scanTrace_eq (env : Env) : scanTrace env = (List.range 100).map probeOf := by
  simp [scanTrace, scanLoop, scanLoop_pair]

theorem runScan_eq (env : Env) :
    runScan env
      = (List.range 100).foldl (fun st i => runCheck env (probeOf i) st) initFindings := by
  simp [runScan, scanLoop, scanLoop_pair]

theorem run_commandE_eq (env : Env) (cmd : String) :
    run_commandE env cmd = Except.ok (run_command env cmd) := by
  unfold run_commandE run_command
  cases run_command_attempt env cmd <;> rfl

theorem runCheckE_eq (env : Env) (p : ProbeId) (st : Findings) :
    runCheckE env p st = Except.ok (runCheck env p st) := by
  cases p <;>
    simp [runCheckE, runCheck, run_commandE_eq,
      check_sudo_misconfigurationsE, check_sudo_misconfigurations,
      check_file_permissionsE, check_file_permissions,
      check_user_securityE, check_user_security,
      check_process_securityE, check_process_security,
      check_kernel_hardeningE, check_kernel_hardening]

theorem foldlM_ok (l : List Nat) (f : Findings → Nat → Findings) (a : Findings) :
    (l.foldlM (fun st i => (Except.ok (f st i) : Except String Findings)) a)
      = Except.ok (l.foldl f a) := by
  induction l generalizing a with
  | nil => rfl
  | cons x xs ih => simp [List.foldlM, ih, List.foldl_cons, bind, Except.bind]

theorem mainScanE_ok (env : Env) : mainScanE env = Except.ok (runScan env) := by
  have h : mainScanE env
      = (List.range 100).foldlM
          (fun st i => (Except.ok (runCheck env (probeOf i) st) : Except String Findings))
          initFindings := by
    unfold mainScanE
    simp [runCheckE_eq]
  rw [h, foldlM_ok, runScan_eq]

theorem strContains_empty_nopasswd : strContains "" "NOPASSWD" = false := by
  decide

theorem runCheck_of_empty (env : Env) (p : ProbeId) (st : Findings)
    (h : ∀ c ∈ probeCommands p, run_command env c = "") :
    runCheck env p st = st := by
  cases p with
  | sudoCheck =>
    have h1 : run_command env sudoLCmd = "" := h _ (by simp [probeCommands])
    have h2 : run_command env suidCmd = "" := h _ (by simp [probeCommands])
    simp [runCheck, check_sudo_misconfigurations, h1, h2, strContains_empty_nopasswd]
  | files =>
    have h1 : run_command env wwCmd = "" := h _ (by simp [probeCommands])
    simp [runCheck, check_file_permissions, h1]
  | users =>
    have h1 : run_command env shadowCmd = "" := h _ (by simp [probeCommands])
    simp [runCheck, check_user_security, h1]
  | processes =>
    have h1 : run_command env psCmd = "" := h _ (by simp [probeCommands])
    simp [runCheck, check_process_security, h1]
  | kernel =>
    have h1 : run_command env sysctlCmd = "" := h _ (by simp [probeCommands])
    simp [runCheck, check_kernel_hardening, h1]

theorem run_command_failCommands (cs : List String) (env : Env) (c : String)
    (h : c ∈ cs) : run_command (failCommands cs env) c = "" := by
  simp [run_command, run_command_attempt, failCommands, h]

theorem generate_text_report_eq (ts : String) (st : Findings) :
    generate_text_report ts st
      = [ReportItem.header, ReportItem.timestampLine ts]
        ++ sectionItemsFor (Severity.critical, st.critical)
        ++ sectionItemsFor (Severity.warning, st.warning)
        ++ sectionItemsFor (Severity.info, st.info) := by
  simp [generate_text_report, findingsItems, List.bind]

theorem sectionSeq_append (a b : List ReportItem) :
    sectionSeq (a ++ b) = sectionSeq a ++ sectionSeq b := by
  simp [sectionSeq, List.filterMap_append]

theorem panelsOf_append (s : Severity) (a b : List ReportItem) :
    panelsOf s (a ++ b) = panelsOf s a ++ panelsOf s b := by
  simp [panelsOf, List.filterMap_append]

theorem sectionSeq_sectionItemsFor (s : Severity) (fs : List Finding) :
    sectionSeq (sectionItemsFor (s, fs)) = if fs = [] then [] else [s] := by
  by_cases h : fs = []
  · simp [sectionItemsFor, h, sectionSeq]
  · simp [sectionItemsFor, h, sectionSeq, List.filterMap_cons, List.filterMap_map]

theorem panelsOf_panels (s s2 : Severity) (fs : List Finding) :
    panelsOf s (fs.map (ReportItem.panel s2)) = if s2 = s then fs else [] := by
  by_cases h2 : s2 = s
  · subst h2
    simp only [if_pos rfl, panelsOf]
    induction fs with
    | nil => rfl
    | cons f fs ih => simpa [List.filterMap_cons] using ih
  · simp [h2, panelsOf]

theorem panelsOf_sectionItemsFor (s s2 : Severity) (fs : List Finding) :
    panelsOf s (sectionItemsFor (s2, fs)) = if s2 = s then fs else [] := by
  by_cases h : fs = []
  · simp [sectionItemsFor, h, panelsOf]
  · simp only [sectionItemsFor, if_neg h]
    have hcons : panelsOf s (ReportItem.sectionHeader s2 :: fs.map (ReportItem.panel s2))
        = panelsOf s (fs.map (ReportItem.panel s2)) := by
      simp [panelsOf, List.filterMap_cons]
    rw [hcons, panelsOf_panels]

theorem mem_sectionHeader_sectionItemsFor (sev s : Severity) (fs : List Finding) :
    ReportItem.sectionHeader sev ∈ sectionItemsFor (s, fs) ↔ (sev = s ∧ fs ≠ []) := by
  by_cases h : fs = []
  · simp [sectionItemsFor, h]
  · simp [sectionItemsFor, h, List.mem_cons, List.mem_map]

theorem isFindingObj_findingToJson (f : Finding) :
    isFindingObj (findingToJson f) = true := by
  simp [isFindingObj, findingToJson, JsonVal.isStr]

/-- Claim C1 (code bug): contrary to the claim that each probe is invoked
exactly once per scan, every scan run of `main` invokes each of the five
probe checks twenty times — the 100-iteration progress loop dispatches
twenty iterations to each check, whatever the system looks like. -/
theorem probe_invoked_twenty_times_per_scan (env : Env) (p : ProbeId) :
    (scanTrace env).count p = 20 := by
  rw [scanTrace_eq]
  cases p <;> decide

/-- Claim C2 (code bug): on a system where `sudo -l` reports a NOPASSWD
grant and every other command output is empty, the completed scan's
critical bucket holds twenty structurally identical copies of the single
sudo_misconfig finding (one per repeated execution of the sudo probe), so
the severity sequences do not contain the probes' findings free of
duplication. -/
theorem scan_duplicates_sudo_finding :
    runScan envNopasswd
      = { critical := List.replicate 20 sudoFinding, warning := [], info := [] }
    ∧ (runScan envNopasswd).critical.count sudoFinding = 20 := by
  constructor
  · decide
  · decide

/-- Claim C3: when every diagnostic command of probe `p` fails to launch
(the exception being caught inside `run_command`), probe `p` contributes
zero findings, the scan loop still performs its full sequence of probe
invocations — in particular the process-security and kernel-hardening
probes that come last — and the whole scan completes with no error
escaping. -/
theorem probe_failure_isolated (env : Env) (p : ProbeId) (st : Findings) :
    runCheck (failCommands (probeCommands p) env) p st = st
    ∧ scanTrace (failCommands (probeCommands p) env) = (List.range 100).map probeOf
    ∧ ProbeId.processes ∈ scanTrace (failCommands (probeCommands p) env)
    ∧ ProbeId.kernel ∈ scanTrace (failCommands (probeCommands p) env)
    ∧ mainScanE (failCommands (probeCommands p) env)
        = Except.ok (runScan (failCommands (probeCommands p) env)) := by
  refine ⟨?_, scanTrace_eq _, ?_, ?_, mainScanE_ok _⟩
  · exact runCheck_of_empty _ p st (fun c hc => run_command_failCommands _ env c hc)
  · rw [scanTrace_eq]; decide
  · rw [scanTrace_eq]; decide

/-- Claim C4: a probe invocation whose diagnostic commands are
unavailable, error out, or produce empty output (all of which surface as
empty `run_command` results, launch failures being caught inside
`run_command`) emits zero findings and returns normally, with no error
escaping the check. -/
theorem empty_or_failed_command_yields_no_findings (env : Env) (p : ProbeId)
    (st : Findings) (h : ∀ c ∈ probeCommands p, run_command env c = "") :
    runCheck env p st = st ∧ runCheckE env p st = Except.ok st := by
  have h1 := runCheck_of_empty env p st h
  exact ⟨h1, by rw [runCheckE_eq, h1]⟩

/-- Claim C4 witness: the user-security probe on a system where no command
can even be launched emits zero findings and does not fail. -/
theorem empty_or_failed_command_yields_no_findings_holds :
    runCheck (fun _ => none) ProbeId.users initFindings = initFindings
    ∧ runCheckE (fun _ => none) ProbeId.users initFindings = Except.ok initFindings :=
  empty_or_failed_command_yields_no_findings (fun _ => none) ProbeId.users
    initFindings (fun _ _ => rfl)

/-- Claim C5: for every scan state the structured report is one JSON
object with exactly the keys `timestamp` (bound to the timestamp string)
and `findings`, whose value has exactly the keys `critical`, `warning`,
`info`, each an array of finding objects with keys `type`, `description`,
`command`, `remediation`; for the all-empty scan state the three arrays
are present and empty. -/
theorem json_report_schema (ts : String) (st : Findings) :
    (∃ cs ws infs : List JsonVal,
      generate_json_report ts st
        = JsonVal.obj
            [ ("timestamp", JsonVal.str ts)
            , ("findings", JsonVal.obj
                [ ("critical", JsonVal.arr cs)
                , ("warning", JsonVal.arr ws)
                , ("info", JsonVal.arr infs) ]) ]
      ∧ ∀ j ∈ cs ++ ws ++ infs, isFindingObj j = true)
    ∧ generate_json_report ts initFindings
        = JsonVal.obj
            [ ("timestamp", JsonVal.str ts)
            , ("findings", JsonVal.obj
                [ ("critical", JsonVal.arr [])
                , ("warning", JsonVal.arr [])
                , ("info", JsonVal.arr []) ]) ] := by
  constructor
  · refine ⟨st.critical.map findingToJson, st.warning.map findingToJson,
      st.info.map findingToJson, rfl, ?_⟩
    intro j hj
    rcases List.mem_append.1 hj with h1 | h2
    · rcases List.mem_append.1 h1 with h1a | h1b
      · obtain ⟨f, _, rfl⟩ := List.mem_map.1 h1a
        exact isFindingObj_findingToJson f
      · obtain ⟨f, _, rfl⟩ := List.mem_map.1 h1b
        exact isFindingObj_findingToJson f
    · obtain ⟨f, _, rfl⟩ := List.mem_map.1 h2
      exact isFindingObj_findingToJson f
  · rfl

/-- Claim C6: the narrative report contains a labeled section header for a
severity exactly when that severity's bucket is non-empty; empty
severities produce no section at all. -/
theorem text_report_section_iff_nonempty (ts : String) (st : Findings) (sev : Severity) :
    ReportItem.sectionHeader sev ∈ generate_text_report ts st ↔ st.bucket sev ≠ [] := by
  rw [generate_text_report_eq]
  simp only [List.mem_append, mem_sectionHeader_sectionItemsFor, List.mem_cons]
  cases sev <;> simp [Findings.bucket]

/-- Claim C7: the narrative report renders its severity sections exactly in
the fixed order critical, warning, info (restricted to the non-empty
buckets), and under each severity it renders exactly that bucket's
findings in bucket order, never reordering them. -/
theorem text_report_fixed_order_no_reordering (ts : String) (st : Findings) :
    sectionSeq (generate_text_report ts st)
      = [Severity.critical, Severity.warning, Severity.info].filter
          (fun s => !(st.bucket s).isEmpty)
    ∧ ∀ s, panelsOf s (generate_text_report ts st) = st.bucket s := by
  constructor
  · rw [generate_text_report_eq]
    rw [sectionSeq_append, sectionSeq_append, sectionSeq_append]
    have hh : sectionSeq [ReportItem.header, ReportItem.timestampLine ts] = [] := rfl
    rw [hh]
    simp only [sectionSeq_sectionItemsFor, List.nil_append]
    rcases st with ⟨cs, ws, infs⟩
    cases cs <;> cases ws <;> cases infs <;>
      simp [Findings.bucket, List.filter]
  · intro s
    rw [generate_text_report_eq]
    rw [panelsOf_append, panelsOf_append, panelsOf_append]
    have hh : panelsOf s [ReportItem.header, ReportItem.timestampLine ts] = [] := rfl
    rw [hh]
    simp only [panelsOf_sectionItemsFor, List.nil_append]
    cases s <;> simp [Findings.bucket]

/-- Claim C8: a `--format` value other than `text` or `json` makes
argument parsing fail with exit status 2 before any probe runs and before
any report is produced; any run that produces a report exits 0. -/
theorem cli_exit_codes (env : Env) (arg : Option String) (ts : String) :
    (∀ v, arg = some v → v ≠ "text" → v ≠ "json" →
      mainCli env arg ts
        = { parsed := none, probesRun := [], report := none, exitCode := 2 })
    ∧ (∀ r, (mainCli env arg ts).report = some r → (mainCli env arg ts).exitCode = 0) := by
  constructor
  · rintro v rfl h1 h2
    simp [mainCli, parse_args, h1, h2]
  · intro r hr
    cases arg with
    | none => simp [mainCli, parse_args]
    | some v =>
      by_cases hv : v = "text" ∨ v = "json"
      · simp [mainCli, parse_args, hv]
      · simp [mainCli, parse_args, hv] at hr

/-- Claim C8 witness: `--format xml` exits 2 with no probe run and no
report, while `--format text` on a system of empty outputs exits 0. -/
theorem cli_exit_codes_holds :
    mainCli (fun _ => some "") (some "xml") "t0"
      = { parsed := none, probesRun := [], report := none, exitCode := 2 }
    ∧ (mainCli (fun _ => some "") (some "text") "t0").exitCode = 0 :=
  ⟨(cli_exit_codes (fun _ => some "") (some "xml") "t0").1 "xml" rfl
      (by decide) (by decide),
   (cli_exit_codes (fun _ => some "") (some "text") "t0").2 _ rfl⟩

/-- Claim C9: report generation is a deterministic function of the scan
state modulo the timestamp: two renderings of the same state agree on the
structured report's key set and entire `findings` value, and on every
printed narrative item except the completion-time line. -/
theorem report_deterministic_modulo_timestamp (st : Findings) (ts1 ts2 : String) :
    ((generate_json_report ts1 st).keys = (generate_json_report ts2 st).keys
      ∧ (generate_json_report ts1 st).lookup "findings"
          = (generate_json_report ts2 st).lookup "findings")
    ∧ (generate_text_report ts1 st).filter nonTimestampItem
        = (generate_text_report ts2 st).filter nonTimestampItem := by
  refine ⟨⟨rfl, rfl⟩, ?_⟩
  rw [generate_text_report_eq, generate_text_report_eq]
  simp [List.filter_append, nonTimestampItem, List.filter]

/-- Claim C10: `generate_report` takes the narrative branch for every
output format other than the exact string "json" (including unrecognised
strings and the default "text") and never rejects a format; only "json"
selects the structured report. -/
theorem generate_report_format_dispatch (st : Findings) (ts fmt : String) :
    (fmt ≠ "json" → generate_report st ts fmt = Report.text (generate_text_report ts st))
    ∧ generate_report st ts "json" = Report.json (generate_json_report ts st) :=
  ⟨fun h => by simp [generate_report, h], by simp [generate_report]⟩

/-- Claim C10 witness: the unrecognised format "xml" takes the narrative
branch. -/
theorem generate_report_format_dispatch_holds :
    generate_report initFindings "t0" "xml"
      = Report.text (generate_text_report "t0" initFindings) :=
  (generate_report_format_dispatch initFindings "t0" "xml").1 (by decide)
